import Mathlib

/-!
Formal model of the two CIFAR-10 notebooks in this repository: the
vision-transformer classifier (`transformer_demo.ipynb`, which also contains
the MLP classifier demo) and the colorization autoencoder
(`colorize_pytorch_demo.ipynb`).

Tensors are modelled as records carrying their shape together with a total
valuation function on natural-number indices; entries outside the shape are
junk and never inspected by the operations (all contractions run over
explicit `Finset.range` bounds taken from the shapes, exactly as the
framework kernels do).  Scalars are rational numbers.  The transcendental
primitives supplied by the framework (`exp`, `log`, GELU, and the reciprocal
square root used for `** -0.5` and layer normalisation) are abstracted as a
`ScalarOps` record, since the repository delegates them wholesale to the
framework.
-/

/-- Framework-supplied scalar primitives used by the notebooks. -/
structure ScalarOps where
  exp : ℚ → ℚ
  log : ℚ → ℚ
  gelu : ℚ → ℚ
  rsqrt : ℚ → ℚ

/-- Rank-1 integer tensor (used for class-label vectors). -/
structure T1 where
  d0 : ℕ
  val : ℕ → ℕ

/-- Rank-2 rational tensor with explicit shape. -/
@[ext]
structure T2 where
  d0 : ℕ
  d1 : ℕ
  val : ℕ → ℕ → ℚ

/-- Rank-3 rational tensor with explicit shape. -/
@[ext]
structure T3 where
  d0 : ℕ
  d1 : ℕ
  d2 : ℕ
  val : ℕ → ℕ → ℕ → ℚ

/-- Rank-4 rational tensor with explicit shape. -/
@[ext]
structure T4 where
  d0 : ℕ
  d1 : ℕ
  d2 : ℕ
  d3 : ℕ
  val : ℕ → ℕ → ℕ → ℕ → ℚ

/-- Rank-5 rational tensor with explicit shape. -/
@[ext]
structure T5 where
  d0 : ℕ
  d1 : ℕ
  d2 : ℕ
  d3 : ℕ
  d4 : ℕ
  val : ℕ → ℕ → ℕ → ℕ → ℕ → ℚ

/-- The shape of a rank-3 tensor as a list, for compact shape statements. -/
def T3.shape (x : T3) : List ℕ := [x.d0, x.d1, x.d2]

/-- An `nn.Linear(inF, outF)` layer: weight has shape `(outF, inF)`. -/
structure Linear where
  inF : ℕ
  outF : ℕ
  weight : ℕ → ℕ → ℚ
  bias : ℕ → ℚ

/-- Model of `nn.Linear` applied to a rank-2 input: `y = x @ W.T + b`. -/
def linear2 (L : Linear) (x : T2) : T2 :=
  ⟨x.d0, L.outF, fun b o =>
    L.bias o + ∑ i ∈ Finset.range L.inF, x.val b i * L.weight o i⟩

/-- Model of `nn.Linear` applied along the last axis of a rank-3 input. -/
def linear3 (L : Linear) (x : T3) : T3 :=
  ⟨x.d0, x.d1, L.outF, fun b n o =>
    L.bias o + ∑ i ∈ Finset.range L.inF, x.val b n i * L.weight o i⟩

/-- Model of `.reshape(B, N, a, b, c)` of a `(B, N, a*b*c)` tensor (row-major). -/
def reshape35 (x : T3) (a b c : ℕ) : T5 :=
  ⟨x.d0, x.d1, a, b, c, fun i j t h d => x.val i j (t * (b * c) + (h * c + d))⟩

/-- Model of `.permute(2, 0, 3, 1, 4)` on a rank-5 tensor. -/
def permute20314 (x : T5) : T5 :=
  ⟨x.d2, x.d0, x.d3, x.d1, x.d4, fun t b h n d => x.val b n t h d⟩

/-- Model of `.unbind(0)` component `t` of a rank-5 tensor. -/
def select5 (x : T5) (t : ℕ) : T4 :=
  ⟨x.d1, x.d2, x.d3, x.d4, fun b h n d => x.val t b h n d⟩

/-- Model of `.transpose(-2, -1)` on a rank-4 tensor. -/
def transposeLast (x : T4) : T4 :=
  ⟨x.d0, x.d1, x.d3, x.d2, fun a b i j => x.val a b j i⟩

/-- Batched matrix product of two rank-4 tensors (`@`). -/
def matmul4 (x y : T4) : T4 :=
  ⟨x.d0, x.d1, x.d2, y.d3, fun a b i j =>
    ∑ k ∈ Finset.range x.d3, x.val a b i k * y.val a b k j⟩

/-- Multiplication of a rank-4 tensor by a scalar on the right. -/
def scale4 (x : T4) (c : ℚ) : T4 :=
  ⟨x.d0, x.d1, x.d2, x.d3, fun a b i j => x.val a b i j * c⟩

/-- Model of `.softmax(dim=-1)` on a rank-4 tensor, with `E` the framework `exp`. -/
def softmaxLast (E : ℚ → ℚ) (x : T4) : T4 :=
  ⟨x.d0, x.d1, x.d2, x.d3, fun a b i j =>
    E (x.val a b i j) / ∑ k ∈ Finset.range x.d3, E (x.val a b i k)⟩

/-- Model of `.transpose(1, 2)` on a rank-4 tensor. -/
def transpose12 (x : T4) : T4 :=
  ⟨x.d0, x.d2, x.d1, x.d3, fun b n h d => x.val b h n d⟩

/-- Model of `.reshape(B, N, c)` of a `(B, N, h, d)` tensor with `c = h*d` (row-major). -/
def reshape43 (x : T4) (c : ℕ) : T3 :=
  ⟨x.d0, x.d1, c, fun b n i => x.val b n (i / x.d3) (i % x.d3)⟩

/-- The `Attention` module of the transformer notebook. -/
structure Attention where
  numHeads : ℕ
  scale : ℚ
  qkv : Linear
  proj : Linear

/-- The attribute assignments performed by `Attention.__init__`
(after its assert has passed): `scale = head_dim ** -0.5`,
`qkv = nn.Linear(dim, dim*3, bias=qkv_bias)`, `proj = nn.Linear(dim, dim)`. -/
def Attention.make (P : ScalarOps) (dim numHeads : ℕ) (qkvBias : Bool)
    (qkvW : ℕ → ℕ → ℚ) (qkvB : ℕ → ℚ) (projW : ℕ → ℕ → ℚ) (projB : ℕ → ℚ) :
    Attention :=
  ⟨numHeads, P.rsqrt ((dim / numHeads : ℕ) : ℚ),
   ⟨dim, dim * 3, qkvW, if qkvBias then qkvB else fun _ => 0⟩,
   ⟨dim, dim, projW, projB⟩⟩

/-- Model of `Attention.__init__` with its failure behaviour: evaluating
`dim % num_heads` raises `ZeroDivisionError` when `num_heads = 0`, and the
`assert dim % num_heads == 0` raises `AssertionError` when the remainder is
nonzero. -/
def Attention.construct (P : ScalarOps) (dim numHeads : ℕ) (qkvBias : Bool)
    (qkvW : ℕ → ℕ → ℚ) (qkvB : ℕ → ℚ) (projW : ℕ → ℕ → ℚ) (projB : ℕ → ℚ) :
    Except String Attention :=
  if numHeads = 0 then
    Except.error "ZeroDivisionError: integer modulo by zero"
  else if dim % numHeads = 0 then
    Except.ok (Attention.make P dim numHeads qkvBias qkvW qkvB projW projB)
  else
    Except.error "AssertionError: dim should be divisible by num_heads"

/-- Whether a modelled constructor call returned normally. -/
def constructOk : Except String Attention → Bool
  | Except.ok _ => true
  | Except.error _ => false

/-- Model of `Attention.forward`, translated operation by operation from the source:
reshape of the qkv output, permute, unbind, scaled dot product, softmax,
weighted sum of values, head recombination, and output projection. -/
def Attention.forward (P : ScalarOps) (A : Attention) (x : T3) : T3 :=
  let C := x.d2
  let qkvOut := linear3 A.qkv x
  let qkvT := permute20314 (reshape35 qkvOut 3 A.numHeads (C / A.numHeads))
  let q := select5 qkvT 0
  let k := select5 qkvT 1
  let v := select5 qkvT 2
  let attn := softmaxLast P.exp (scale4 (matmul4 q (transposeLast k)) A.scale)
  let y := reshape43 (transpose12 (matmul4 attn v)) C
  linear3 A.proj y

/-- Head dimension `C // num_heads` used by the textbook description. -/
def Attention.headDim (A : Attention) (x : T3) : ℕ := x.d2 / A.numHeads

/-- Textbook per-head query: columns `h*head_dim + d` of the qkv output. -/
def Attention.qHead (A : Attention) (x : T3) (h b n d : ℕ) : ℚ :=
  (linear3 A.qkv x).val b n (h * A.headDim x + d)

/-- Textbook per-head key: columns `C + h*head_dim + d` of the qkv output. -/
def Attention.kHead (A : Attention) (x : T3) (h b n d : ℕ) : ℚ :=
  (linear3 A.qkv x).val b n (x.d2 + (h * A.headDim x + d))

/-- Textbook per-head value: columns `2*C + h*head_dim + d` of the qkv output. -/
def Attention.vHead (A : Attention) (x : T3) (h b n d : ℕ) : ℚ :=
  (linear3 A.qkv x).val b n (2 * x.d2 + (h * A.headDim x + d))

/-- Textbook attention score `(q @ k.T) * head_dim ** -0.5` for one head. -/
def Attention.headScore (P : ScalarOps) (A : Attention) (x : T3)
    (h b i j : ℕ) : ℚ :=
  (∑ d ∈ Finset.range (A.headDim x),
    A.qHead x h b i d * A.kHead x h b j d) * P.rsqrt ((A.headDim x : ℕ) : ℚ)

/-- Textbook attention matrix: softmax of the scores over key positions. -/
def Attention.headAttn (P : ScalarOps) (A : Attention) (x : T3)
    (h b i j : ℕ) : ℚ :=
  P.exp (A.headScore P x h b i j) /
    ∑ k ∈ Finset.range x.d1, P.exp (A.headScore P x h b i k)

/-- Textbook per-head output `attn @ v`. -/
def Attention.headOut (P : ScalarOps) (A : Attention) (x : T3)
    (h b n d : ℕ) : ℚ :=
  ∑ j ∈ Finset.range x.d1, A.headAttn P x h b n j * A.vHead x h b j d

/-- Modelled from the spec: textbook multi-head scaled dot-product
attention.  The qkv output is split into per-head query, key and value
tensors, each head computes `softmax((q @ k.T) * head_dim ** -0.5) @ v`, the
heads are recombined into a `(B, N, C)` tensor, and the final linear
projection is applied. -/
def Attention.specForward (P : ScalarOps) (A : Attention) (x : T3) : T3 :=
  linear3 A.proj
    ⟨x.d0, x.d1, x.d2, fun b n c =>
      A.headOut P x (c / A.headDim x) b n (c % A.headDim x)⟩

/-- Claim C2 (counterexample): `Attention.__init__` does not succeed for every
pair `(dim, num_heads)`: at `dim = 5`, `num_heads = 2` the assert
`dim % num_heads == 0` fails, so construction raises. -/
theorem attention_construct_fails_at_5_2 :
    constructOk (Attention.construct ⟨id, id, id, id⟩ 5 2 false
      (fun _ _ => 0) (fun _ => 0) (fun _ _ => 0) (fun _ => 0)) = false := by
  rfl

/-- Claim C2 (amended): `Attention.__init__` succeeds exactly when
`num_heads` is nonzero and `dim` is divisible by `num_heads`; otherwise it
raises (`ZeroDivisionError` or `AssertionError`). -/
theorem attention_construct_ok_iff (P : ScalarOps) (dim numHeads : ℕ)
    (qkvBias : Bool) (qkvW : ℕ → ℕ → ℚ) (qkvB : ℕ → ℚ)
    (projW : ℕ → ℕ → ℚ) (projB : ℕ → ℚ) :
    constructOk (Attention.construct P dim numHeads qkvBias qkvW qkvB projW projB)
      = true ↔ numHeads ≠ 0 ∧ dim % numHeads = 0 := by
  unfold Attention.construct
  by_cases h0 : numHeads = 0
  · simp [h0, constructOk]
  · by_cases h1 : dim % numHeads = 0
    · simp [h0, h1, constructOk]
    · simp [h0, h1, constructOk]

/-- The permuted qkv tensor built inside `Attention.forward`. -/
def Attention.qkvT (A : Attention) (x : T3) : T5 :=
  permute20314 (reshape35 (linear3 A.qkv x) 3 A.numHeads (x.d2 / A.numHeads))

/-- The attention matrix built inside `Attention.forward`. -/
def Attention.attnT (P : ScalarOps) (A : Attention) (x : T3) : T4 :=
  softmaxLast P.exp
    (scale4 (matmul4 (select5 (A.qkvT x) 0) (transposeLast (select5 (A.qkvT x) 1))) A.scale)

/-- The per-head output tensor `attn @ v` built inside `Attention.forward`. -/
def Attention.outT (P : ScalarOps) (A : Attention) (x : T3) : T4 :=
  matmul4 (A.attnT P x) (select5 (A.qkvT x) 2)

theorem Attention.forward_decomp (P : ScalarOps) (A : Attention) (x : T3) :
    A.forward P x = linear3 A.proj (reshape43 (transpose12 (A.outT P x)) x.d2) := rfl

theorem Attention.q_val (A : Attention) (x : T3) (b h n d : ℕ) :
    (select5 (A.qkvT x) 0).val b h n d = A.qHead x h b n d := by
  simp [Attention.qkvT, select5, permute20314, reshape35, Attention.qHead,
    Attention.headDim]

theorem Attention.k_val (A : Attention) (x : T3)
    (hdd : A.numHeads * (x.d2 / A.numHeads) = x.d2) (b h n d : ℕ) :
    (select5 (A.qkvT x) 1).val b h n d = A.kHead x h b n d := by
  simp [Attention.qkvT, select5, permute20314, reshape35, Attention.kHead,
    Attention.headDim, hdd]

theorem Attention.v_val (A : Attention) (x : T3)
    (hdd : A.numHeads * (x.d2 / A.numHeads) = x.d2) (b h n d : ℕ) :
    (select5 (A.qkvT x) 2).val b h n d = A.vHead x h b n d := by
  simp [Attention.qkvT, select5, permute20314, reshape35, Attention.vHead,
    Attention.headDim, hdd]

theorem Attention.score_val (P : ScalarOps) (A : Attention) (x : T3)
    (hdd : A.numHeads * (x.d2 / A.numHeads) = x.d2)
    (hs : A.scale = P.rsqrt (((x.d2 / A.numHeads : ℕ) : ℚ))) (b h i j : ℕ) :
    (scale4 (matmul4 (select5 (A.qkvT x) 0) (transposeLast (select5 (A.qkvT x) 1)))
        A.scale).val b h i j
      = A.headScore P x h b i j := by
  have hq3 : (select5 (A.qkvT x) 0).d3 = x.d2 / A.numHeads := rfl
  simp only [scale4, matmul4, transposeLast, hq3, Attention.q_val,
    Attention.k_val A x hdd, hs, Attention.headScore, Attention.headDim]

theorem Attention.attn_val (P : ScalarOps) (A : Attention) (x : T3)
    (hdd : A.numHeads * (x.d2 / A.numHeads) = x.d2)
    (hs : A.scale = P.rsqrt (((x.d2 / A.numHeads : ℕ) : ℚ))) (b h i j : ℕ) :
    (A.attnT P x).val b h i j = A.headAttn P x h b i j := by
  have hd3 : (scale4 (matmul4 (select5 (A.qkvT x) 0)
      (transposeLast (select5 (A.qkvT x) 1))) A.scale).d3 = x.d1 := rfl
  simp only [Attention.attnT, softmaxLast, hd3,
    Attention.score_val P A x hdd hs, Attention.headAttn]

theorem Attention.out_val (P : ScalarOps) (A : Attention) (x : T3)
    (hdd : A.numHeads * (x.d2 / A.numHeads) = x.d2)
    (hs : A.scale = P.rsqrt (((x.d2 / A.numHeads : ℕ) : ℚ))) (b h n d : ℕ) :
    (A.outT P x).val b h n d = A.headOut P x h b n d := by
  have ha3 : (A.attnT P x).d3 = x.d1 := rfl
  simp only [Attention.outT, matmul4, ha3,
    Attention.attn_val P A x hdd hs, Attention.v_val A x hdd, Attention.headOut]

/-- Claim C1: for inputs whose channel count is the configured `dim` and is
divisible by `num_heads`, `Attention.forward` computes exactly the textbook
multi-head scaled dot-product attention described by `Attention.specForward`:
per-head split of the qkv output, `softmax((q @ k.T) * head_dim ** -0.5) @ v`
per head, recombination to `(B, N, C)`, and a final linear projection, with
no other scaling or numerical adjustment. -/
theorem attention_forward_matches_textbook
    (P : ScalarOps) (dim numHeads : ℕ) (qkvBias : Bool)
    (qkvW : ℕ → ℕ → ℚ) (qkvB : ℕ → ℚ) (projW : ℕ → ℕ → ℚ) (projB : ℕ → ℚ)
    (x : T3) (hC : x.d2 = dim) (hdvd : dim % numHeads = 0) :
    Attention.forward P (Attention.make P dim numHeads qkvBias qkvW qkvB projW projB) x
      = Attention.specForward P (Attention.make P dim numHeads qkvBias qkvW qkvB projW projB) x := by
  subst hC
  set A := Attention.make P x.d2 numHeads qkvBias qkvW qkvB projW projB with hA
  have hdd : A.numHeads * (x.d2 / A.numHeads) = x.d2 :=
    Nat.mul_div_cancel' (Nat.dvd_of_mod_eq_zero hdvd)
  have hs : A.scale = P.rsqrt (((x.d2 / A.numHeads : ℕ) : ℚ)) := rfl
  rw [Attention.forward_decomp]
  unfold Attention.specForward
  congr 1
  ext b n c
  · rfl
  · rfl
  · rfl
  · have ho3 : (A.outT P x).d3 = x.d2 / A.numHeads := rfl
    simp only [reshape43, transpose12, ho3,
      Attention.out_val P A x hdd hs, Attention.headDim]

/-- Witness for `attention_forward_matches_textbook` at a concrete input. -/
theorem attention_forward_matches_textbook_witness :
    (⟨1, 1, 2, fun _ _ _ => 1⟩ : T3).d2 = 2 ∧ (2 : ℕ) % 1 = 0 ∧
    Attention.forward ⟨id, id, id, id⟩
        (Attention.make ⟨id, id, id, id⟩ 2 1 false
          (fun _ _ => 1) (fun _ => 0) (fun _ _ => 1) (fun _ => 0))
        ⟨1, 1, 2, fun _ _ _ => 1⟩
      = Attention.specForward ⟨id, id, id, id⟩
        (Attention.make ⟨id, id, id, id⟩ 2 1 false
          (fun _ _ => 1) (fun _ => 0) (fun _ _ => 1) (fun _ => 0))
        ⟨1, 1, 2, fun _ _ _ => 1⟩ :=
  ⟨rfl, rfl,
    attention_forward_matches_textbook _ 2 1 false _ _ _ _ _ rfl rfl⟩

/-- The `Mlp` module of the transformer notebook: two linear layers with an
activation between them. -/
structure Mlp where
  fc1 : Linear
  fc2 : Linear

/-- Model of `Mlp.__init__`: `fc1 = nn.Linear(in_features, hidden_features)`,
`fc2 = nn.Linear(hidden_features, out_features)`. -/
def Mlp.make (inFeatures hiddenFeatures outFeatures : ℕ)
    (w1 : ℕ → ℕ → ℚ) (b1 : ℕ → ℚ) (w2 : ℕ → ℕ → ℚ) (b2 : ℕ → ℚ) : Mlp :=
  ⟨⟨inFeatures, hiddenFeatures, w1, b1⟩, ⟨hiddenFeatures, outFeatures, w2, b2⟩⟩

/-- Pointwise activation (`act_layer`, `nn.GELU` by default) on rank 3. -/
def act3 (G : ℚ → ℚ) (x : T3) : T3 :=
  ⟨x.d0, x.d1, x.d2, fun b n c => G (x.val b n c)⟩

/-- Model of `Mlp.forward`: `fc2(act(fc1(x)))`. -/
def Mlp.forward (P : ScalarOps) (m : Mlp) (x : T3) : T3 :=
  linear3 m.fc2 (act3 P.gelu (linear3 m.fc1 x))

/-- Model of `nn.LayerNorm(dim)`: normalisation over the last `dim` entries with
learnable elementwise affine parameters and `eps = 1e-5`. -/
structure LayerNorm where
  dim : ℕ
  gamma : ℕ → ℚ
  beta : ℕ → ℚ

/-- Model of `nn.LayerNorm` applied to a rank-3 input; the reciprocal square root of
the shifted variance is the framework primitive `rsqrt`. -/
def LayerNorm.forward (P : ScalarOps) (L : LayerNorm) (x : T3) : T3 :=
  ⟨x.d0, x.d1, x.d2, fun b n c =>
    let mu := (∑ i ∈ Finset.range L.dim, x.val b n i) / (L.dim : ℚ)
    let variance := (∑ i ∈ Finset.range L.dim, (x.val b n i - mu) ^ 2) / (L.dim : ℚ)
    (x.val b n c - mu) * P.rsqrt (variance + 1 / 100000) * L.gamma c + L.beta c⟩

/-- The weight tensors of one transformer `Block` (framework-initialised,
hence arbitrary here). -/
structure BlockWeights where
  n1g : ℕ → ℚ
  n1b : ℕ → ℚ
  qkvW : ℕ → ℕ → ℚ
  qkvB : ℕ → ℚ
  projW : ℕ → ℕ → ℚ
  projB : ℕ → ℚ
  n2g : ℕ → ℚ
  n2b : ℕ → ℚ
  w1 : ℕ → ℕ → ℚ
  b1 : ℕ → ℚ
  w2 : ℕ → ℕ → ℚ
  b2 : ℕ → ℚ

/-- One encoder `Block`: pre-norm attention and pre-norm MLP. -/
structure Block where
  norm1 : LayerNorm
  attn : Attention
  norm2 : LayerNorm
  mlp : Mlp

/-- Model of `Block.__init__`: `norm1 = norm_layer(dim)`, `attn = Attention(dim,
num_heads, qkv_bias)`, `norm2 = norm_layer(dim)`, `mlp = Mlp(dim,
int(dim * mlp_ratio))` (so `out_features` defaults to `dim`). -/
def Block.make (P : ScalarOps) (dim numHeads : ℕ) ( mlpRatio : ℚ)
    (qkvBias : Bool) (W : BlockWeights) : Block :=
  ⟨⟨dim, W.n1g, W.n1b⟩,
   Attention.make P dim numHeads qkvBias W.qkvW W.qkvB W.projW W.projB,
   ⟨dim, W.n2g, W.n2b⟩,
   Mlp.make dim ((dim * mlpRatio : ℚ).floor.toNat) dim W.w1 W.b1 W.w2 W.b2⟩

/-- Elementwise tensor addition (the `+` of the residual connections). -/
def add3 (x y : T3) : T3 :=
  ⟨x.d0, x.d1, x.d2, fun b n c => x.val b n c + y.val b n c⟩

/-- Model of `Block.forward`: `x = x + attn(norm1(x)); x = x + mlp(norm2(x))`. -/
def Block.forward (P : ScalarOps) (blk : Block) (x : T3) : T3 :=
  let x1 := add3 x (Attention.forward P blk.attn (LayerNorm.forward P blk.norm1 x))
  add3 x1 (Mlp.forward P blk.mlp (LayerNorm.forward P blk.norm2 x1))

/-- The `Transformer` module: a list of encoder blocks. -/
structure Transformer where
  blocks : List Block

/-- Model of `Transformer.__init__`: `num_blocks` blocks, each with its own
framework-initialised weights. -/
def Transformer.make (P : ScalarOps) (dim numHeads numBlocks : ℕ)
    ( mlpRatio : ℚ) (qkvBias : Bool) (Ws : ℕ → BlockWeights) : Transformer :=
  ⟨(List.range numBlocks).map fun i => Block.make P dim numHeads mlpRatio qkvBias (Ws i)⟩

/-- Model of `Transformer.forward`: sequential application of the blocks. -/
def Transformer.forward (P : ScalarOps) (t : Transformer) (x : T3) : T3 :=
  t.blocks.foldl (fun a blk => Block.forward P blk a) x

theorem attention_forward_dims (P : ScalarOps) (A : Attention) (x : T3) :
    (A.forward P x).shape = [x.d0, x.d1, A.proj.outF] := rfl

theorem mlp_forward_dims (P : ScalarOps) (m : Mlp) (x : T3) :
    (Mlp.forward P m x).shape = [x.d0, x.d1, m.fc2.outF] := rfl

theorem block_forward_dims (P : ScalarOps) (blk : Block) (x : T3) :
    (Block.forward P blk x).shape = x.shape := rfl

theorem Transformer.foldl_shape (P : ScalarOps) :
    ∀ (l : List Block) (x : T3),
      (l.foldl (fun a blk => Block.forward P blk a) x).shape = x.shape
  | [], _ => rfl
  | blk :: l, x => by
      rw [List.foldl_cons, Transformer.foldl_shape P l (Block.forward P blk x)]
      rfl

/-- Claim C9: for inputs of shape `(B, N, C)` with `C` equal to the
configured `dim` and divisible by `num_heads`, `Attention.forward`,
`Block.forward` and `Transformer.forward` all return tensors of the same
shape `(B, N, C)`; in particular both residual addends inside a block have
the shape of the tensor they are added to. -/
theorem transformer_shapes_preserved
    (P : ScalarOps) (dim numHeads numBlocks : ℕ) ( mlpRatio : ℚ)
    (qkvBias : Bool) (W : BlockWeights) (Ws : ℕ → BlockWeights) (x : T3)
    (hC : x.d2 = dim) (hdvd : dim % numHeads = 0) :
    (Attention.forward P
        (Attention.make P dim numHeads qkvBias W.qkvW W.qkvB W.projW W.projB)
        x).shape = x.shape
    ∧ (Attention.forward P (Block.make P dim numHeads mlpRatio qkvBias W).attn
        (LayerNorm.forward P (Block.make P dim numHeads mlpRatio qkvBias W).norm1 x)).shape
      = x.shape
    ∧ (∀ y : T3, y.shape = x.shape →
        (Mlp.forward P (Block.make P dim numHeads mlpRatio qkvBias W).mlp
          (LayerNorm.forward P (Block.make P dim numHeads mlpRatio qkvBias W).norm2 y)).shape
        = y.shape)
    ∧ (Block.forward P (Block.make P dim numHeads mlpRatio qkvBias W) x).shape = x.shape
    ∧ (Transformer.forward P
        (Transformer.make P dim numHeads numBlocks mlpRatio qkvBias Ws) x).shape
      = x.shape := by
  subst hC
  refine ⟨?_, ?_, ?_, rfl, ?_⟩
  · rw [attention_forward_dims]
    rfl
  · rw [attention_forward_dims]
    rfl
  · intro y hy
    rw [mlp_forward_dims]
    have h2 : y.d2 = x.d2 := by
      have h := hy
      simp only [T3.shape, List.cons.injEq, and_true] at h
      exact h.2.2
    simp [T3.shape, Block.make, Mlp.make, LayerNorm.forward, h2]
  · exact Transformer.foldl_shape P _ x

/-- Witness for `transformer_shapes_preserved` at a concrete input. -/
theorem transformer_shapes_preserved_witness :
    (⟨1, 1, 1, fun _ _ _ => 0⟩ : T3).d2 = 1 ∧ (1 : ℕ) % 1 = 0 ∧
    (Transformer.forward ⟨id, id, id, id⟩
        (Transformer.make ⟨id, id, id, id⟩ 1 1 1 4 false fun _ =>
          ⟨fun _ => 0, fun _ => 0, fun _ _ => 0, fun _ => 0, fun _ _ => 0,
           fun _ => 0, fun _ => 0, fun _ => 0, fun _ _ => 0, fun _ => 0,
           fun _ _ => 0, fun _ => 0⟩)
        ⟨1, 1, 1, fun _ _ _ => 0⟩).shape
      = (⟨1, 1, 1, fun _ _ _ => 0⟩ : T3).shape :=
  ⟨rfl, rfl,
    (transformer_shapes_preserved ⟨id, id, id, id⟩ 1 1 1 4 false
      ⟨fun _ => 0, fun _ => 0, fun _ _ => 0, fun _ => 0, fun _ _ => 0,
       fun _ => 0, fun _ => 0, fun _ => 0, fun _ _ => 0, fun _ => 0,
       fun _ _ => 0, fun _ => 0⟩
      (fun _ =>
        ⟨fun _ => 0, fun _ => 0, fun _ _ => 0, fun _ => 0, fun _ _ => 0,
         fun _ => 0, fun _ => 0, fun _ => 0, fun _ _ => 0, fun _ => 0,
         fun _ _ => 0, fun _ => 0⟩)
      ⟨1, 1, 1, fun _ _ _ => 0⟩ rfl rfl).2.2.2.2⟩

/-- An `nn.Conv2d(inC, outC, kernel_size, stride)` layer (default padding 0,
as used by the encoder). -/
structure Conv2d where
  inC : ℕ
  outC : ℕ
  kernelSize : ℕ
  stride : ℕ
  weight : ℕ → ℕ → ℕ → ℕ → ℚ
  bias : ℕ → ℚ

/-- Model of `nn.Conv2d` applied to a `(B, C, H, W)` input: output spatial size is
`(H - K) / stride + 1` and each entry is the windowed dot product plus bias. -/
def Conv2d.forward (c : Conv2d) (x : T4) : T4 :=
  ⟨x.d0, c.outC, (x.d2 - c.kernelSize) / c.stride + 1,
   (x.d3 - c.kernelSize) / c.stride + 1,
   fun b co i j =>
     c.bias co +
       ∑ ci ∈ Finset.range c.inC, ∑ ki ∈ Finset.range c.kernelSize,
         ∑ kj ∈ Finset.range c.kernelSize,
           c.weight co ci ki kj * x.val b ci (i * c.stride + ki) (j * c.stride + kj)⟩

/-- An `nn.ConvTranspose2d(inC, outC, kernel_size, stride, padding)` layer. -/
structure ConvTranspose2d where
  inC : ℕ
  outC : ℕ
  kernelSize : ℕ
  stride : ℕ
  padding : ℕ
  weight : ℕ → ℕ → ℕ → ℕ → ℚ
  bias : ℕ → ℚ

/-- Model of `nn.ConvTranspose2d` applied to a `(B, C, H, W)` input: output spatial
size is `(H - 1) * stride + K - 2 * padding`; input position `(ii, jj)` and
kernel offset `(ki, kj)` contribute to output position `(i, j)` exactly when
`ii * stride + ki = i + padding` (and likewise for columns). -/
def ConvTranspose2d.forward (c : ConvTranspose2d) (x : T4) : T4 :=
  ⟨x.d0, c.outC, (x.d2 - 1) * c.stride + c.kernelSize - 2 * c.padding,
   (x.d3 - 1) * c.stride + c.kernelSize - 2 * c.padding,
   fun b co i j =>
     c.bias co +
       ∑ ci ∈ Finset.range c.inC, ∑ ii ∈ Finset.range x.d2,
         ∑ jj ∈ Finset.range x.d3, ∑ ki ∈ Finset.range c.kernelSize,
           ∑ kj ∈ Finset.range c.kernelSize,
             if ii * c.stride + ki = i + c.padding ∧ jj * c.stride + kj = j + c.padding then
               c.weight ci co ki kj * x.val b ci ii jj
             else 0⟩

/-- Pointwise `nn.ReLU` on a rank-4 tensor. -/
def relu4 (x : T4) : T4 :=
  ⟨x.d0, x.d1, x.d2, x.d3, fun b c i j => max 0 (x.val b c i j)⟩

/-- Model of `rearrange(y, "b c h w -> b (c h w)")`: row-major flattening of the
trailing three axes. -/
def flatten4 (x : T4) : T2 :=
  ⟨x.d0, x.d1 * x.d2 * x.d3, fun b f =>
    x.val b (f / (x.d2 * x.d3)) (f / x.d3 % x.d2) (f % x.d3)⟩

/-- The CNN `Encoder` of the colorization notebook. -/
structure Encoder where
  conv1 : Conv2d
  conv2 : Conv2d
  conv3 : Conv2d
  fc1 : Linear

/-- The weight tensors of an `Encoder` (framework-initialised). -/
structure EncoderWeights where
  w1 : ℕ → ℕ → ℕ → ℕ → ℚ
  b1 : ℕ → ℚ
  w2 : ℕ → ℕ → ℕ → ℕ → ℚ
  b2 : ℕ → ℚ
  w3 : ℕ → ℕ → ℕ → ℕ → ℚ
  b3 : ℕ → ℚ
  fw : ℕ → ℕ → ℚ
  fb : ℕ → ℚ

/-- Model of `Encoder.__init__`: three stride-2 convolutions doubling the filter
count, then `fc1 = nn.Linear(2304, feature_dim)`. -/
def Encoder.make (nFeatures kernelSize nFilters featureDim : ℕ)
    (W : EncoderWeights) : Encoder :=
  ⟨⟨nFeatures, nFilters, kernelSize, 2, W.w1, W.b1⟩,
   ⟨nFilters, nFilters * 2, kernelSize, 2, W.w2, W.b2⟩,
   ⟨nFilters * 2, nFilters * 4, kernelSize, 2, W.w3, W.b3⟩,
   ⟨2304, featureDim, W.fw, W.fb⟩⟩

/-- Model of `Encoder.forward`: three ReLU convolutions, flattening, and `fc1`. -/
def Encoder.forward (e : Encoder) (x : T4) : T2 :=
  linear2 e.fc1 (flatten4 (relu4 (Conv2d.forward e.conv3
    (relu4 (Conv2d.forward e.conv2 (relu4 (Conv2d.forward e.conv1 x)))))))

/-- The CNN `Decoder` of the colorization notebook. -/
structure Decoder where
  initSize : ℕ
  fc1 : Linear
  conv1 : ConvTranspose2d
  conv2 : ConvTranspose2d
  conv3 : ConvTranspose2d
  conv4 : ConvTranspose2d

/-- The weight tensors of a `Decoder` (framework-initialised). -/
structure DecoderWeights where
  fw : ℕ → ℕ → ℚ
  fb : ℕ → ℚ
  w1 : ℕ → ℕ → ℕ → ℕ → ℚ
  b1 : ℕ → ℚ
  w2 : ℕ → ℕ → ℕ → ℕ → ℚ
  b2 : ℕ → ℚ
  w3 : ℕ → ℕ → ℕ → ℕ → ℚ
  b3 : ℕ → ℚ
  w4 : ℕ → ℕ → ℕ → ℕ → ℚ
  b4 : ℕ → ℚ

/-- Model of `Decoder.__init__`: `init_size = output_size // 2**2`, an MLP resize,
two stride-2 transposed convolutions (padding 1), one unit-stride transposed
convolution (padding 1), and a final transposed convolution with kernel
`kernel_size + 1`. -/
def Decoder.make (kernelSize nFilters featureDim outputSize outputChannels : ℕ)
    (W : DecoderWeights) : Decoder :=
  ⟨outputSize / 2 ^ 2,
   ⟨featureDim, (outputSize / 2 ^ 2) ^ 2 * nFilters, W.fw, W.fb⟩,
   ⟨nFilters, nFilters / 2, kernelSize, 2, 1, W.w1, W.b1⟩,
   ⟨nFilters / 2, nFilters / 4, kernelSize, 2, 1, W.w2, W.b2⟩,
   ⟨nFilters / 4, nFilters / 4, kernelSize, 1, 1, W.w3, W.b3⟩,
   ⟨nFilters / 4, outputChannels, kernelSize + 1, 1, 0, W.w4, W.b4⟩⟩

/-- Model of `rearrange(y, "b (c h w) -> b c h w" with h and w given)`: the channel count is
inferred as `d1 / (h * w)`. -/
def unflatten2 (y : T2) (h w : ℕ) : T4 :=
  ⟨y.d0, y.d1 / (h * w), h, w, fun b c i j => y.val b (c * (h * w) + (i * w + j))⟩

/-- The logistic sigmoid written with the framework `exp`. -/
def sigmoid (E : ℚ → ℚ) (v : ℚ) : ℚ := 1 / (1 + E (-v))

/-- Pointwise `nn.Sigmoid` on a rank-4 tensor. -/
def sigmoid4 (E : ℚ → ℚ) (x : T4) : T4 :=
  ⟨x.d0, x.d1, x.d2, x.d3, fun b c i j => sigmoid E (x.val b c i j)⟩

/-- Model of `Decoder.forward`: MLP resize, reshape to a feature map, three ReLU
transposed convolutions, and a Sigmoid-activated final transposed
convolution. -/
def Decoder.forward (P : ScalarOps) (d : Decoder) (x : T2) : T4 :=
  let y := unflatten2 (linear2 d.fc1 x) d.initSize d.initSize
  sigmoid4 P.exp (ConvTranspose2d.forward d.conv4
    (relu4 (ConvTranspose2d.forward d.conv3
      (relu4 (ConvTranspose2d.forward d.conv2
        (relu4 (ConvTranspose2d.forward d.conv1 y)))))))

/-- Claim C3: with default parameters, the encoder maps a `(B, 1, 32, 32)`
grayscale image to a `(B, 256)` latent vector (its flattened convolutional
features having exactly the `2304` entries `fc1` expects), and the decoder
maps a `(B, 256)` latent vector to a `(B, 3, 32, 32)` image. -/
theorem encoder_decoder_shapes (P : ScalarOps)
    (We : EncoderWeights) (Wd : DecoderWeights)
    (x : T4) (hx1 : x.d1 = 1) (hx2 : x.d2 = 32) (hx3 : x.d3 = 32)
    (z : T2) (hz : z.d1 = 256) :
    ((Encoder.make 1 3 64 256 We).forward x).d0 = x.d0
    ∧ ((Encoder.make 1 3 64 256 We).forward x).d1 = 256
    ∧ (flatten4 (relu4 (Conv2d.forward (Encoder.make 1 3 64 256 We).conv3
        (relu4 (Conv2d.forward (Encoder.make 1 3 64 256 We).conv2
          (relu4 (Conv2d.forward (Encoder.make 1 3 64 256 We).conv1 x))))))).d1
      = (Encoder.make 1 3 64 256 We).fc1.inF
    ∧ (Decoder.forward P (Decoder.make 3 256 256 32 3 Wd) z).d0 = z.d0
    ∧ (Decoder.forward P (Decoder.make 3 256 256 32 3 Wd) z).d1 = 3
    ∧ (Decoder.forward P (Decoder.make 3 256 256 32 3 Wd) z).d2 = 32
    ∧ (Decoder.forward P (Decoder.make 3 256 256 32 3 Wd) z).d3 = 32 := by
  refine ⟨rfl, rfl, ?_, rfl, rfl, rfl, rfl⟩
  simp only [Encoder.make, Encoder.forward, Conv2d.forward, relu4, flatten4,
    linear2, hx2, hx3]

/-- Witness for `encoder_decoder_shapes` at a concrete input. -/
theorem encoder_decoder_shapes_witness :
    (⟨1, 1, 32, 32, fun _ _ _ _ => 0⟩ : T4).d1 = 1 ∧
    (⟨1, 256, fun _ _ => 0⟩ : T2).d1 = 256 ∧
    ((Encoder.make 1 3 64 256
        ⟨fun _ _ _ _ => 0, fun _ => 0, fun _ _ _ _ => 0, fun _ => 0,
         fun _ _ _ _ => 0, fun _ => 0, fun _ _ => 0, fun _ => 0⟩).forward
      ⟨1, 1, 32, 32, fun _ _ _ _ => 0⟩).d1 = 256 ∧
    (Decoder.forward ⟨id, id, id, id⟩
      (Decoder.make 3 256 256 32 3
        ⟨fun _ _ => 0, fun _ => 0, fun _ _ _ _ => 0, fun _ => 0,
         fun _ _ _ _ => 0, fun _ => 0, fun _ _ _ _ => 0, fun _ => 0,
         fun _ _ _ _ => 0, fun _ => 0⟩)
      ⟨1, 256, fun _ _ => 0⟩).d2 = 32 :=
  ⟨rfl, rfl,
    (encoder_decoder_shapes ⟨id, id, id, id⟩
      ⟨fun _ _ _ _ => 0, fun _ => 0, fun _ _ _ _ => 0, fun _ => 0,
       fun _ _ _ _ => 0, fun _ => 0, fun _ _ => 0, fun _ => 0⟩
      ⟨fun _ _ => 0, fun _ => 0, fun _ _ _ _ => 0, fun _ => 0,
       fun _ _ _ _ => 0, fun _ => 0, fun _ _ _ _ => 0, fun _ => 0,
       fun _ _ _ _ => 0, fun _ => 0⟩
      ⟨1, 1, 32, 32, fun _ _ _ _ => 0⟩ rfl rfl rfl
      ⟨1, 256, fun _ _ => 0⟩ rfl).2.1,
    (encoder_decoder_shapes ⟨id, id, id, id⟩
      ⟨fun _ _ _ _ => 0, fun _ => 0, fun _ _ _ _ => 0, fun _ => 0,
       fun _ _ _ _ => 0, fun _ => 0, fun _ _ => 0, fun _ => 0⟩
      ⟨fun _ _ => 0, fun _ => 0, fun _ _ _ _ => 0, fun _ => 0,
       fun _ _ _ _ => 0, fun _ => 0, fun _ _ _ _ => 0, fun _ => 0,
       fun _ _ _ _ => 0, fun _ => 0⟩
      ⟨1, 1, 32, 32, fun _ _ _ _ => 0⟩ rfl rfl rfl
      ⟨1, 256, fun _ _ => 0⟩ rfl).2.2.2.2.2.1⟩

theorem sigmoid_pos_lt_one (E : ℚ → ℚ) (hE : ∀ v : ℚ, 0 < E v) (t : ℚ) :
    0 < sigmoid E t ∧ sigmoid E t < 1 := by
  unfold sigmoid
  have h := hE (-t)
  have hd : (0 : ℚ) < 1 + E (-t) := by linarith
  refine ⟨div_pos one_pos hd, ?_⟩
  rw [div_lt_one hd]
  linarith

/-- Claim C10: for every latent input and every parameter assignment, every
entry of the tensor returned by `Decoder.forward` lies strictly between 0
and 1, because the last layer is passed through a Sigmoid (the framework
`exp` is positive everywhere). -/
theorem decoder_output_in_unit_interval (P : ScalarOps)
    (hE : ∀ v : ℚ, 0 < P.exp v) (d : Decoder) (x : T2) (b c i j : ℕ) :
    0 < (Decoder.forward P d x).val b c i j
    ∧ (Decoder.forward P d x).val b c i j < 1 :=
  sigmoid_pos_lt_one P.exp hE _

/-- Witness for `decoder_output_in_unit_interval` at a concrete input. -/
theorem decoder_output_in_unit_interval_witness :
    0 < (Decoder.forward ⟨fun _ => 1, id, id, id⟩
      (Decoder.make 3 256 256 32 3
        ⟨fun _ _ => 0, fun _ => 0, fun _ _ _ _ => 0, fun _ => 0,
         fun _ _ _ _ => 0, fun _ => 0, fun _ _ _ _ => 0, fun _ => 0,
         fun _ _ _ _ => 0, fun _ => 0⟩)
      ⟨1, 256, fun _ _ => 0⟩).val 0 0 0 0 :=
  (decoder_output_in_unit_interval ⟨fun _ => 1, id, id, id⟩
    (fun _ => one_pos)
    (Decoder.make 3 256 256 32 3
      ⟨fun _ _ => 0, fun _ => 0, fun _ _ _ _ => 0, fun _ => 0,
       fun _ _ _ _ => 0, fun _ => 0, fun _ _ _ _ => 0, fun _ => 0,
       fun _ _ _ _ => 0, fun _ => 0⟩)
    ⟨1, 256, fun _ _ => 0⟩ 0 0 0 0).1

/-- Pointwise activation on rank 2 (`nn.GELU()(...)`). -/
def act2 (G : ℚ → ℚ) (x : T2) : T2 :=
  ⟨x.d0, x.d1, fun b i => G (x.val b i)⟩

/-- The `SimpleMLP` of the MLP notebook: three `nn.Linear` layers. -/
structure SimpleMLP where
  fc1 : Linear
  fc2 : Linear
  fc3 : Linear

/-- Model of `SimpleMLP.__init__`. -/
def SimpleMLP.make (nFeatures nHidden numClasses : ℕ)
    (w1 : ℕ → ℕ → ℚ) (b1 : ℕ → ℚ) (w2 : ℕ → ℕ → ℚ) (b2 : ℕ → ℚ)
    (w3 : ℕ → ℕ → ℚ) (b3 : ℕ → ℚ) : SimpleMLP :=
  ⟨⟨nFeatures, nHidden, w1, b1⟩, ⟨nHidden, nHidden, w2, b2⟩,
   ⟨nHidden, numClasses, w3, b3⟩⟩

/-- Model of `SimpleMLP.forward`: flatten, then `fc3(gelu(fc2(gelu(fc1(y)))))`. -/
def SimpleMLP.forward (P : ScalarOps) (m : SimpleMLP) (x : T4) : T2 :=
  let y := flatten4 x
  let y1 := act2 P.gelu (linear2 m.fc1 y)
  let y2 := act2 P.gelu (linear2 m.fc2 y1)
  linear2 m.fc3 y2

/-- The `TensorMLP` of the MLP notebook: raw weight and bias parameters. -/
structure TensorMLP where
  nFeatures : ℕ
  nHidden : ℕ
  numClasses : ℕ
  w1 : ℕ → ℕ → ℚ
  b1 : ℕ → ℚ
  w2 : ℕ → ℕ → ℚ
  b2 : ℕ → ℚ
  w3 : ℕ → ℕ → ℚ
  b3 : ℕ → ℚ

/-- Model of `.T` on a raw weight matrix. -/
def transposeW (w : ℕ → ℕ → ℚ) : ℕ → ℕ → ℚ := fun i j => w j i

/-- Model of `y @ m` for a rank-2 tensor and a raw matrix with `cols` columns. -/
def matmul2 (x : T2) (m : ℕ → ℕ → ℚ) (cols : ℕ) : T2 :=
  ⟨x.d0, cols, fun b j => ∑ k ∈ Finset.range x.d1, x.val b k * m k j⟩

/-- Row-broadcast addition of a bias vector (`+ b`). -/
def addRow (x : T2) (bias : ℕ → ℚ) : T2 :=
  ⟨x.d0, x.d1, fun b j => x.val b j + bias j⟩

/-- Model of `TensorMLP.forward`: flatten, then `y @ w.T + b` per layer with GELU
between the layers. -/
def TensorMLP.forward (P : ScalarOps) (m : TensorMLP) (x : T4) : T2 :=
  let y := flatten4 x
  let y1 := act2 P.gelu (addRow (matmul2 y (transposeW m.w1) m.nHidden) m.b1)
  let y2 := act2 P.gelu (addRow (matmul2 y1 (transposeW m.w2) m.nHidden) m.b2)
  addRow (matmul2 y2 (transposeW m.w3) m.numClasses) m.b3

theorem manual_linear_eq (x : T2) (w : ℕ → ℕ → ℚ) (bias : ℕ → ℚ) (n m : ℕ)
    (hm : m = x.d1) :
    addRow (matmul2 x (transposeW w) n) bias = linear2 ⟨m, n, w, bias⟩ x := by
  subst hm
  ext b j
  · rfl
  · rfl
  · simp [addRow, matmul2, transposeW, linear2, add_comm]

/-- Claim C8: with equal parameters, the two MLP implementations compute the
same function: `TensorMLP.forward` (manual `y @ w.T + b` layers) agrees with
`SimpleMLP.forward` (three `nn.Linear` layers) on every input whose
flattened feature count matches the first layer. -/
theorem tensor_mlp_matches_simple_mlp (P : ScalarOps) (m : TensorMLP) (x : T4)
    (hx : x.d1 * x.d2 * x.d3 = m.nFeatures) :
    TensorMLP.forward P m x
      = SimpleMLP.forward P
          (SimpleMLP.make m.nFeatures m.nHidden m.numClasses
            m.w1 m.b1 m.w2 m.b2 m.w3 m.b3) x := by
  have h1 : m.nFeatures = (flatten4 x).d1 := by
    rw [← hx]
    rfl
  simp only [TensorMLP.forward, SimpleMLP.forward, SimpleMLP.make]
  rw [manual_linear_eq (flatten4 x) m.w1 m.b1 m.nHidden m.nFeatures h1]
  rw [manual_linear_eq
    (act2 P.gelu (linear2 ⟨m.nFeatures, m.nHidden, m.w1, m.b1⟩ (flatten4 x)))
    m.w2 m.b2 m.nHidden m.nHidden rfl]
  rw [manual_linear_eq
    (act2 P.gelu (linear2 ⟨m.nHidden, m.nHidden, m.w2, m.b2⟩
      (act2 P.gelu (linear2 ⟨m.nFeatures, m.nHidden, m.w1, m.b1⟩ (flatten4 x)))))
    m.w3 m.b3 m.numClasses m.nHidden rfl]

/-- Witness for `tensor_mlp_matches_simple_mlp` at a concrete input. -/
theorem tensor_mlp_matches_simple_mlp_witness :
    (1 : ℕ) * 3 * 4 = 12 ∧
    TensorMLP.forward ⟨id, id, id, id⟩
        ⟨12, 2, 3, fun _ _ => 1, fun _ => 1, fun _ _ => 1, fun _ => 1,
         fun _ _ => 1, fun _ => 1⟩
        ⟨1, 1, 3, 4, fun _ _ _ _ => 1⟩
      = SimpleMLP.forward ⟨id, id, id, id⟩
          (SimpleMLP.make 12 2 3 (fun _ _ => 1) (fun _ => 1) (fun _ _ => 1)
            (fun _ => 1) (fun _ _ => 1) (fun _ => 1))
          ⟨1, 1, 3, 4, fun _ _ _ _ => 1⟩ :=
  ⟨rfl,
    tensor_mlp_matches_simple_mlp ⟨id, id, id, id⟩
      ⟨12, 2, 3, fun _ _ => 1, fun _ => 1, fun _ _ => 1, fun _ => 1,
       fun _ _ => 1, fun _ => 1⟩
      ⟨1, 1, 3, 4, fun _ _ _ _ => 1⟩ rfl⟩

/-- A zero image, used only as the out-of-range default when indexing a
batch list. -/
def default3 : T3 := ⟨0, 0, 0, fun _ _ _ => 0⟩

/-- Model of `torch.stack(x, dim=0)` on a list of rank-3 images (all of the same
shape, which `torch.stack` requires). -/
def stack3 (l : List T3) : T4 :=
  ⟨l.length, (l.headD default3).d0, (l.headD default3).d1,
   (l.headD default3).d2, fun b c i j => (l.getD b default3).val c i j⟩

/-- Model of `reduce(x, "b c h w -> b 1 h w", "mean")`: per-pixel mean over the
channel axis. -/
def meanChannel (x : T4) : T4 :=
  ⟨x.d0, 1, x.d2, x.d3, fun b _ i j =>
    (∑ c ∈ Finset.range x.d1, x.val b c i j) / (x.d1 : ℚ)⟩

/-- Model of `gray_collate_fn`: stacks the images of a batch (discarding the labels)
and returns the per-pixel channel mean paired with the stacked images. -/
def grayCollateFn (batch : List (T3 × ℕ)) : T4 × T4 :=
  let x := stack3 (batch.map Prod.fst)
  let xn := meanChannel x
  (xn, x)

/-- Model of `rearrange(x, "b c (p1 h) (p2 w) -> b (p1 p2) (c h w)" with p1 = p2 = p)`:
each image becomes `p*p` flattened patches. -/
def patchify (x : T4) (p : ℕ) : T3 :=
  let h := x.d2 / p
  let w := x.d3 / p
  ⟨x.d0, p * p, x.d1 * h * w, fun b s f =>
    x.val b (f / (h * w)) (s / p * h + f / w % h) (s % p * w + f % w)⟩

/-- Model of `LitCifar10.collate_fn`: stacks the images, collects the labels in a
`LongTensor`, and splits each image into `patch_num²` flattened patches. -/
def LitCifar10.collateFn (patchNum : ℕ) (batch : List (T3 × ℕ)) : T3 × T1 :=
  let x := stack3 (batch.map Prod.fst)
  let y : T1 := ⟨batch.length, fun i => (batch.getD i (default3, 0)).2⟩
  (patchify x patchNum, y)

/-- Claim C4: on a non-empty batch of `n` samples of shape `(c, h, w)`,
`gray_collate_fn` returns `(xn, x)` with `x` of shape `(n, c, h, w)`, `xn`
of shape `(n, 1, h, w)` equal to the per-pixel channel mean of `x`, and
labels discarded; `LitCifar10.collate_fn` returns `(x, y)` with `x` of
shape `(n, p*p, c*(h/p)*(w/p))` and `y` the length-`n` label tensor. -/
theorem collate_fns_assemble_batches
    (batch : List (T3 × ℕ)) (c h w p : ℕ) (hne : batch ≠ [])
    (hdim : ∀ s ∈ batch, s.1.d0 = c ∧ s.1.d1 = h ∧ s.1.d2 = w) :
    ((grayCollateFn batch).2.d0 = batch.length
      ∧ (grayCollateFn batch).2.d1 = c
      ∧ (grayCollateFn batch).2.d2 = h
      ∧ (grayCollateFn batch).2.d3 = w)
    ∧ ((grayCollateFn batch).1.d0 = batch.length
      ∧ (grayCollateFn batch).1.d1 = 1
      ∧ (grayCollateFn batch).1.d2 = h
      ∧ (grayCollateFn batch).1.d3 = w)
    ∧ (∀ b k i j, (grayCollateFn batch).1.val b k i j
        = (∑ ch ∈ Finset.range c, (grayCollateFn batch).2.val b ch i j) / (c : ℚ))
    ∧ ((LitCifar10.collateFn p batch).1.d0 = batch.length
      ∧ (LitCifar10.collateFn p batch).1.d1 = p * p
      ∧ (LitCifar10.collateFn p batch).1.d2 = c * (h / p) * (w / p))
    ∧ ((LitCifar10.collateFn p batch).2.d0 = batch.length
      ∧ ∀ i, (LitCifar10.collateFn p batch).2.val i
          = (batch.getD i (default3, 0)).2) := by
  obtain ⟨a, l, rfl⟩ : ∃ a l, batch = a :: l := by
    cases batch with
    | nil => exact absurd rfl hne
    | cons a l => exact ⟨a, l, rfl⟩
  obtain ⟨hc, hh, hw⟩ := hdim a (List.mem_cons_self a l)
  refine ⟨⟨?_, ?_, ?_, ?_⟩, ⟨?_, ?_, ?_, ?_⟩, ?_, ⟨?_, ?_, ?_⟩, ?_, ?_⟩ <;>
    simp [grayCollateFn, LitCifar10.collateFn, stack3, meanChannel, patchify,
      hc, hh, hw]

/-- Witness for `collate_fns_assemble_batches` at a concrete batch. -/
theorem collate_fns_assemble_batches_witness :
    ([((⟨1, 2, 2, fun _ _ _ => 0⟩ : T3), 5)] : List (T3 × ℕ)) ≠ [] ∧
    (grayCollateFn [((⟨1, 2, 2, fun _ _ _ => 0⟩ : T3), 5)]).1.d1 = 1 :=
  ⟨by simp,
    (collate_fns_assemble_batches [((⟨1, 2, 2, fun _ _ _ => 0⟩ : T3), 5)]
      1 2 2 1 (by simp)
      (fun s hs => by
        rw [List.mem_singleton] at hs
        subst hs
        exact ⟨rfl, rfl, rfl⟩)).2.1.2.1⟩

/-- Model of `nn.MSELoss()`: mean of squared differences over all entries. -/
def mseLoss (a b : T4) : ℚ :=
  (∑ i ∈ Finset.range a.d0, ∑ c ∈ Finset.range a.d1, ∑ h ∈ Finset.range a.d2,
    ∑ w ∈ Finset.range a.d3, (a.val i c h w - b.val i c h w) ^ 2)
    / ((a.d0 * a.d1 * a.d2 * a.d3 : ℕ) : ℚ)

/-- Model of `nn.CrossEntropyLoss()`: mean over the batch of
`log(sum(exp(logits))) - logit[target]`. -/
def crossEntropyLoss (P : ScalarOps) (logits : T2) (y : T1) : ℚ :=
  (∑ b ∈ Finset.range logits.d0,
    (P.log (∑ c ∈ Finset.range logits.d1, P.exp (logits.val b c))
      - logits.val b (y.val b))) / ((logits.d0 : ℕ) : ℚ)

/-- An optimizer as configured by `configure_optimizers`. -/
inductive Optimizer where
  | adam (lr : ℚ)

/-- A learning-rate scheduler as configured by `configure_optimizers`. -/
inductive LRScheduler where
  | cosineAnnealingLR (tMax : ℕ)

/-- The dictionary `{"loss": loss}` returned by a training step. -/
structure TrainStepOut where
  loss : ℚ

/-- The dictionary returned by the colorization test/validation step. -/
structure ColorizeTestOut where
  xIn : T4
  x : T4
  xTilde : T4
  testLoss : ℚ

/-- The colorization Lightning module: hyperparameters and submodules. -/
structure LitColorizeCIFAR10Model where
  featureDim : ℕ
  lr : ℚ
  batchSize : ℕ
  numWorkers : ℕ
  maxEpochs : ℕ
  encoder : Encoder
  decoder : Decoder

/-- Model of `LitColorizeCIFAR10Model.__init__`: saves the hyperparameters and builds
`Encoder(feature_dim)`, `Decoder(feature_dim)` (loss is `nn.MSELoss()`). -/
def LitColorizeCIFAR10Model.make (featureDim : ℕ) (lr : ℚ)
    (batchSize numWorkers maxEpochs : ℕ)
    (We : EncoderWeights) (Wd : DecoderWeights) : LitColorizeCIFAR10Model :=
  ⟨featureDim, lr, batchSize, numWorkers, maxEpochs,
   Encoder.make 1 3 64 featureDim We, Decoder.make 3 256 featureDim 32 3 Wd⟩

/-- Model of `LitColorizeCIFAR10Model.forward`: decode the encoded input. -/
def LitColorizeCIFAR10Model.forward (P : ScalarOps)
    (m : LitColorizeCIFAR10Model) (x : T4) : T4 :=
  Decoder.forward P m.decoder (Encoder.forward m.encoder x)

/-- Model of `LitColorizeCIFAR10Model.training_step`. -/
def LitColorizeCIFAR10Model.trainingStep (P : ScalarOps)
    (m : LitColorizeCIFAR10Model) (batch : T4 × T4) : TrainStepOut :=
  ⟨mseLoss (LitColorizeCIFAR10Model.forward P m batch.1) batch.2⟩

/-- Model of `LitColorizeCIFAR10Model.test_step`. -/
def LitColorizeCIFAR10Model.testStep (P : ScalarOps)
    (m : LitColorizeCIFAR10Model) (batch : T4 × T4) : ColorizeTestOut :=
  let xTilde := LitColorizeCIFAR10Model.forward P m batch.1
  ⟨batch.1, batch.2, xTilde, mseLoss xTilde batch.2⟩

/-- Model of `LitColorizeCIFAR10Model.validation_step` (same as the test step). -/
def LitColorizeCIFAR10Model.validationStep (P : ScalarOps)
    (m : LitColorizeCIFAR10Model) (batch : T4 × T4) : ColorizeTestOut :=
  LitColorizeCIFAR10Model.testStep P m batch

/-- Model of `LitColorizeCIFAR10Model.configure_optimizers`. -/
def LitColorizeCIFAR10Model.configureOptimizers
    (m : LitColorizeCIFAR10Model) : List Optimizer × List LRScheduler :=
  ([Optimizer.adam m.lr], [LRScheduler.cosineAnnealingLR m.maxEpochs])

/-- Model of `x.flatten(start_dim=1)` on a rank-3 tensor. -/
def flatten3 (x : T3) : T2 :=
  ⟨x.d0, x.d1 * x.d2, fun b f => x.val b (f / x.d2) (f % x.d2)⟩

/-- The transformer Lightning module: hyperparameters and submodules. -/
structure LitTransformer where
  numClasses : ℕ
  lr : ℚ
  maxEpochs : ℕ
  depth : ℕ
  embedDim : ℕ
  head : ℕ
  patchDim : ℕ
  seqlen : ℕ
  encoder : Transformer
  embed : Linear
  fc : Linear

/-- Model of `LitTransformer.__init__`: saves the hyperparameters and builds the
`Transformer` encoder, the patch embedding, and the classification head
(loss is `nn.CrossEntropyLoss()`). -/
def LitTransformer.make (P : ScalarOps) (numClasses : ℕ) (lr : ℚ)
    (maxEpochs depth embedDim head patchDim seqlen : ℕ)
    (Ws : ℕ → BlockWeights) (embedW : ℕ → ℕ → ℚ) (embedB : ℕ → ℚ)
    (fcW : ℕ → ℕ → ℚ) (fcB : ℕ → ℚ) : LitTransformer :=
  ⟨numClasses, lr, maxEpochs, depth, embedDim, head, patchDim, seqlen,
   Transformer.make P embedDim head depth 4 false Ws,
   ⟨patchDim, embedDim, embedW, embedB⟩,
   ⟨seqlen * embedDim, numClasses, fcW, fcB⟩⟩

/-- Model of `LitTransformer.forward`: linear projection, encoder, flatten,
classification head. -/
def LitTransformer.forward (P : ScalarOps) (m : LitTransformer) (x : T3) : T2 :=
  linear2 m.fc (flatten3 (Transformer.forward P m.encoder (linear3 m.embed x)))

/-- Model of `LitTransformer.training_step` (returns the loss itself). -/
def LitTransformer.trainingStep (P : ScalarOps) (m : LitTransformer)
    (batch : T3 × T1) : ℚ :=
  crossEntropyLoss P (LitTransformer.forward P m batch.1) batch.2

/-- Model of `argmax` over the class axis of one row of logits. -/
def argmaxRow (t : T2) (b : ℕ) : ℕ :=
  (List.range t.d1).foldl (fun best j => if t.val b best < t.val b j then j else best) 0

/-- Model of `torchmetrics.functional.accuracy`: fraction of rows whose argmax equals
the label. -/
def accuracy (t : T2) (y : T1) : ℚ :=
  (((Finset.range t.d0).filter fun b => argmaxRow t b = y.val b).card : ℚ) / (t.d0 : ℚ)

/-- The dictionary returned by the classifier test/validation steps. -/
structure ClsTestOut where
  yHat : T2
  testLoss : ℚ
  testAcc : ℚ

/-- Model of `LitTransformer.test_step`. -/
def LitTransformer.testStep (P : ScalarOps) (m : LitTransformer)
    (batch : T3 × T1) : ClsTestOut :=
  let yHat := LitTransformer.forward P m batch.1
  ⟨yHat, crossEntropyLoss P yHat batch.2, accuracy yHat batch.2⟩

/-- Model of `LitTransformer.validation_step` (same as the test step). -/
def LitTransformer.validationStep (P : ScalarOps) (m : LitTransformer)
    (batch : T3 × T1) : ClsTestOut :=
  LitTransformer.testStep P m batch

/-- Model of `LitTransformer.configure_optimizers`. -/
def LitTransformer.configureOptimizers (m : LitTransformer) :
    List Optimizer × List LRScheduler :=
  ([Optimizer.adam m.lr], [LRScheduler.cosineAnnealingLR m.maxEpochs])

/-- The MLP Lightning module: hyperparameters and the wrapped model (the
`model` constructor argument, applied to `num_classes`). -/
structure LitCIFAR10Model where
  numClasses : ℕ
  lr : ℚ
  batchSize : ℕ
  numWorkers : ℕ
  maxEpochs : ℕ
  model : T4 → T2

/-- Model of `LitCIFAR10Model.forward`: delegate to the wrapped model. -/
def LitCIFAR10Model.forward (m : LitCIFAR10Model) (x : T4) : T2 :=
  m.model x

/-- Model of `LitCIFAR10Model.training_step` (loss is `nn.CrossEntropyLoss()`). -/
def LitCIFAR10Model.trainingStep (P : ScalarOps) (m : LitCIFAR10Model)
    (batch : T4 × T1) : TrainStepOut :=
  ⟨crossEntropyLoss P (m.forward batch.1) batch.2⟩

/-- Model of `LitCIFAR10Model.test_step` (accuracy is scaled by 100 here). -/
def LitCIFAR10Model.testStep (P : ScalarOps) (m : LitCIFAR10Model)
    (batch : T4 × T1) : ClsTestOut :=
  let yHat := m.forward batch.1
  ⟨yHat, crossEntropyLoss P yHat batch.2, accuracy yHat batch.2 * 100⟩

/-- Model of `LitCIFAR10Model.validation_step` (same as the test step). -/
def LitCIFAR10Model.validationStep (P : ScalarOps) (m : LitCIFAR10Model)
    (batch : T4 × T1) : ClsTestOut :=
  LitCIFAR10Model.testStep P m batch

/-- Model of `LitCIFAR10Model.configure_optimizers`. -/
def LitCIFAR10Model.configureOptimizers (m : LitCIFAR10Model) :
    List Optimizer × List LRScheduler :=
  ([Optimizer.adam m.lr], [LRScheduler.cosineAnnealingLR m.maxEpochs])

/-- Claim C5: every Lightning module exposes `training_step`,
`validation_step` and `configure_optimizers`, and for every batch the
training step returns the loss criterion of the module applied to the forward
output and the target: MSE for the colorization autoencoder, cross-entropy
for the transformer and MLP classifiers. -/
theorem training_steps_apply_criterion (P : ScalarOps) :
    (∀ (m : LitColorizeCIFAR10Model) (batch : T4 × T4),
      (LitColorizeCIFAR10Model.trainingStep P m batch).loss
        = mseLoss (LitColorizeCIFAR10Model.forward P m batch.1) batch.2)
    ∧ (∀ (m : LitTransformer) (batch : T3 × T1),
      LitTransformer.trainingStep P m batch
        = crossEntropyLoss P (LitTransformer.forward P m batch.1) batch.2)
    ∧ (∀ (m : LitCIFAR10Model) (batch : T4 × T1),
      (LitCIFAR10Model.trainingStep P m batch).loss
        = crossEntropyLoss P (LitCIFAR10Model.forward m batch.1) batch.2)
    ∧ (∀ (m : LitColorizeCIFAR10Model) (batch : T4 × T4),
      LitColorizeCIFAR10Model.validationStep P m batch
        = LitColorizeCIFAR10Model.testStep P m batch)
    ∧ (∀ (m : LitTransformer) (batch : T3 × T1),
      LitTransformer.validationStep P m batch = LitTransformer.testStep P m batch)
    ∧ (∀ (m : LitCIFAR10Model) (batch : T4 × T1),
      LitCIFAR10Model.validationStep P m batch = LitCIFAR10Model.testStep P m batch) :=
  ⟨fun _ _ => rfl, fun _ _ => rfl, fun _ _ => rfl,
   fun _ _ => rfl, fun _ _ => rfl, fun _ _ => rfl⟩

/-- Claim C6: in every Lightning module, `configure_optimizers` returns an
Adam optimizer with learning rate `hparams.lr` paired with a cosine
annealing scheduler whose `T_max` equals `max_epochs`. -/
theorem configure_optimizers_adam_cosine :
    (∀ m : LitColorizeCIFAR10Model,
      LitColorizeCIFAR10Model.configureOptimizers m
        = ([Optimizer.adam m.lr], [LRScheduler.cosineAnnealingLR m.maxEpochs]))
    ∧ (∀ m : LitTransformer,
      LitTransformer.configureOptimizers m
        = ([Optimizer.adam m.lr], [LRScheduler.cosineAnnealingLR m.maxEpochs]))
    ∧ (∀ m : LitCIFAR10Model,
      LitCIFAR10Model.configureOptimizers m
        = ([Optimizer.adam m.lr], [LRScheduler.cosineAnnealingLR m.maxEpochs])) :=
  ⟨fun _ => rfl, fun _ => rfl, fun _ => rfl⟩

/-- A `wandb.Image` logged in a table. -/
structure WandbImage where
  image : T3

/-- One cell of a logged table: an image or a class-name string. -/
inductive WandbCell where
  | img (i : WandbImage)
  | txt (s : String)

/-- One `log_table` record accumulated on the tracking service. -/
structure WandbTable where
  key : String
  columns : List String
  data : List (List WandbCell)

/-- Model of `x[i]`: the `i`-th image of a batch tensor. -/
def sliceT4 (x : T4) (i : ℕ) : T3 :=
  ⟨x.d1, x.d2, x.d3, fun c h w => x.val i c h w⟩

/-- CIFAR-10 class names (`label_human`). -/
def labelHuman : List String :=
  ["airplane", "automobile", "bird", "cat", "deer", "dog", "frog", "horse",
   "ship", "truck"]

/-- Model of `WandbCallback.on_validation_batch_end` of the colorization notebook:
when `batch_idx == 0` it logs one table pairing ground-truth colour, gray
input and colorized output for the first `batch_size // 4` samples (the
slices truncate like the Python `zip` of `[:n]` slices); otherwise it does
nothing. -/
def WandbCallback.onValidationBatchEndColorize (log : List WandbTable)
    (plModule : LitColorizeCIFAR10Model) (outputs : ColorizeTestOut)
    (batch : T4 × T4) (batchIdx : ℕ) : List WandbTable :=
  if batchIdx = 0 then
    let x := batch.1
    let c := batch.2
    let n := plModule.batchSize / 4
    let outs := outputs.xTilde
    let len := min n (min c.d0 (min x.d0 outs.d0))
    log ++ [⟨"cifar10-colorize-ae", ["gt color", "gray", "colorized"],
      (List.range len).map fun i =>
        [WandbCell.img ⟨sliceT4 c i⟩, WandbCell.img ⟨sliceT4 x i⟩,
         WandbCell.img ⟨sliceT4 outs i⟩]⟩]
  else
    log

/-- Model of `WandbCallback.on_validation_batch_end` of the MLP notebook: when
`batch_idx == 0` it logs one table of the first 10 images with human-readable
ground-truth and argmax-predicted class names, keyed by the class name of the
wrapped model; otherwise it does nothing. -/
def WandbCallback.onValidationBatchEndMlp (log : List WandbTable)
    (modelName : String) (outputs : ClsTestOut) (batch : T4 × T1)
    (batchIdx : ℕ) : List WandbTable :=
  if batchIdx = 0 then
    let n := 10
    let x := batch.1
    let y := batch.2
    let preds := fun b => argmaxRow outputs.yHat b
    let len := min n (min x.d0 (min y.d0 outputs.yHat.d0))
    log ++ [⟨modelName, ["image", "ground truth", "prediction"],
      (List.range len).map fun i =>
        [WandbCell.img ⟨sliceT4 x i⟩,
         WandbCell.txt (labelHuman.getD (y.val i) ""),
         WandbCell.txt (labelHuman.getD (preds i) "")]⟩]
  else
    log

/-- Claim C7: each `WandbCallback.on_validation_batch_end` appends exactly
one table of sample predictions to the tracking state when and only when
`batch_idx = 0`, and leaves the tracking state unchanged for every other
batch index. -/
theorem wandb_callback_logs_iff_first_batch :
    (∀ log m outputs batch idx, idx ≠ 0 →
      WandbCallback.onValidationBatchEndColorize log m outputs batch idx = log)
    ∧ (∀ log m outputs batch,
      ∃ t, WandbCallback.onValidationBatchEndColorize log m outputs batch 0
        = log ++ [t])
    ∧ (∀ log name outputs batch idx, idx ≠ 0 →
      WandbCallback.onValidationBatchEndMlp log name outputs batch idx = log)
    ∧ (∀ log name outputs batch,
      ∃ t, WandbCallback.onValidationBatchEndMlp log name outputs batch 0
        = log ++ [t]) := by
  refine ⟨fun log m outputs batch idx hidx => ?_,
          fun log m outputs batch => ⟨_, rfl⟩,
          fun log name outputs batch idx hidx => ?_,
          fun log name outputs batch => ⟨_, rfl⟩⟩
  · simp [WandbCallback.onValidationBatchEndColorize, hidx]
  · simp [WandbCallback.onValidationBatchEndMlp, hidx]

/-- Witness for `wandb_callback_logs_iff_first_batch` at a concrete state. -/
theorem wandb_callback_logs_iff_first_batch_witness :
    (1 : ℕ) ≠ 0 ∧
    WandbCallback.onValidationBatchEndMlp [] "SimpleMLP"
      ⟨⟨1, 10, fun _ _ => 0⟩, 0, 0⟩
      (⟨1, 3, 32, 32, fun _ _ _ _ => 0⟩, ⟨1, fun _ => 0⟩) 1 = [] :=
  ⟨by decide,
    wandb_callback_logs_iff_first_batch.2.2.1 [] "SimpleMLP"
      ⟨⟨1, 10, fun _ _ => 0⟩, 0, 0⟩
      (⟨1, 3, 32, 32, fun _ _ _ _ => 0⟩, ⟨1, fun _ => 0⟩) 1 (by decide)⟩
